import Mathlib

set_option maxHeartbeats 1000000

/-!
Shallow embedding of the conversation core of the claude-langgraph-chat-app
repository: the message formatting, streaming chat, blocking chat and socket
handler logic of src/utils/langgraph_agent.py and src/app.py, together with a
store model for the MongoDB checkpointer (whose source file is not part of the
repository snapshot; its contract is taken from the specification).
-/

/-- A chat message in the application's wire format: a dictionary with keys
role and text, as produced by app.py's add_to_chat_history. -/
structure ChatMsg where
  role : String
  text : String
  deriving DecidableEq, Repr

/-- LangChain-style messages as handled by the agent: HumanMessage, AIMessage
and SystemMessage, each carrying a content string. -/
inductive LCMessage where
  | human (content : String)
  | ai (content : String)
  | system (content : String)
  deriving DecidableEq, Repr

/-- Content extraction, mirroring accessing the .content attribute. -/
def LCMessage.content : LCMessage → String
  | .human s => s
  | .ai s => s
  | .system s => s

/-- Modelled from the spec: a Checkpoint is a persisted snapshot of a thread's
full conversation history, tagged with an identifier and a timestamp, plus the
system string the agent code stores alongside it (the checkpoint dictionaries
built in langgraph_agent.py carry keys ts, id, messages and system). -/
structure Checkpoint where
  ts : String
  id : String
  messages : List LCMessage
  system : String
  deriving DecidableEq, Repr

/-- Modelled from the spec: the Message History Store maps thread identifiers
to their latest checkpoint.  The MongoCheckpointer source file is missing from
the repository snapshot; per the spec (section 4.1) the store is a keyed
document store with latest-checkpoint retrieval and snapshot-replacement save. -/
abbrev Store := List (String × Checkpoint)

/-- Modelled from the spec: get_checkpoint returns the latest persisted
checkpoint for a thread, or an explicit absent result if none exists. -/
def getCheckpoint : Store → String → Option Checkpoint
  | [], _ => none
  | (k, v) :: rest, tid => if k = tid then some v else getCheckpoint rest tid

/-- Modelled from the spec: save_checkpoint atomically replaces the latest
checkpoint for the thread (snapshot replacement, not an append-only log). -/
def saveCheckpoint : Store → String → Checkpoint → Store
  | [], tid, cp => [(tid, cp)]
  | (k, v) :: rest, tid, cp =>
      if k = tid then (tid, cp) :: rest else (k, v) :: saveCheckpoint rest tid cp

/-- Outcome of iterating the provider's streaming call: either the stream
completes normally after yielding the listed chunks, or it raises an exception
with the given message after yielding the listed chunks. -/
inductive StreamOutcome where
  | ok (chunks : List String)
  | err (chunks : List String) (msg : String)
  deriving Repr

/-- Whether the provider stream completed without raising. -/
def StreamOutcome.isOk : StreamOutcome → Bool
  | .ok _ => true
  | .err _ _ => false

/-- Observable events of one chat_stream call, in order: a fragment yielded to
the caller, or an attempt to save a checkpoint (successful or not). -/
inductive Event where
  | frag (s : String)
  | save
  deriving DecidableEq, Repr

/-- The environment a request runs in: whether the MongoDB checkpointer was
initialized (self.checkpointer is not None), the identifier uuid4 produces for
the next checkpoint, whether save_checkpoint raises (some msg) or succeeds
(none), and the provider's deterministic stream and invoke behaviour as
functions of the message list sent to the model. -/
structure Env where
  hasCheckpointer : Bool
  freshId : String
  saveResult : Option String
  stream : List LCMessage → StreamOutcome
  invoke : List LCMessage → Except String String

/-- Python truthiness of an optional string argument: None and the empty
string are falsy. -/
def truthy : Option String → Bool
  | none => false
  | some s => if s = "" then false else true

/-- _format_messages_for_graph of langgraph_agent.py: walk the history in
order, turning role user into a HumanMessage and role assistant into an
AIMessage, and skipping every other role. -/
def formatMessagesForGraph : List ChatMsg → List LCMessage
  | [] => []
  | m :: rest =>
      if m.role = "user" then LCMessage.human m.text :: formatMessagesForGraph rest
      else if m.role = "assistant" then LCMessage.ai m.text :: formatMessagesForGraph rest
      else formatMessagesForGraph rest

/-- The merged message list both chat and chat_stream build: the formatted
history, preceded by the previous checkpoint's messages when a truthy
thread_id and a checkpointer are present, the checkpoint exists, and the
formatted history is non-empty (langgraph_agent.py lines 131-143 and
192-203). -/
def mergedMessages (env : Env) (store : Store) (history : List ChatMsg)
    (threadId : Option String) : List LCMessage :=
  let formatted := formatMessagesForGraph history
  if truthy threadId && env.hasCheckpointer then
    match getCheckpoint store (threadId.getD "") with
    | some cp => if formatted.isEmpty then formatted else cp.messages ++ formatted
    | none => formatted
  else formatted

/-- The message list chat_stream sends to the provider's stream call: the
merged history, with a SystemMessage inserted at the front when system_prompt
is truthy (langgraph_agent.py lines 205-207). -/
def streamMessagesToSend (env : Env) (store : Store) (history : List ChatMsg)
    (systemPrompt : Option String) (threadId : Option String) : List LCMessage :=
  let merged := mergedMessages env store history threadId
  if truthy systemPrompt then LCMessage.system (systemPrompt.getD "") :: merged
  else merged

/-- Accumulation of streamed chunks into the full response, mirroring
repeated string concatenation. -/
def joinAll : List String → String
  | [] => ""
  | s :: rest => s ++ joinAll rest

/-- The placeholder timestamp the agent writes into every checkpoint. -/
def placeholderTs : String := "2024-01-01T00:00:00.000Z"

/-- chat_stream of langgraph_agent.py as a function from the environment,
store and arguments to the ordered list of observable events (fragments
yielded to the caller and checkpoint-save attempts) and the resulting store.
Only chunks with truthy content are yielded and accumulated; after a
successful stream, a checkpoint holding the merged history plus the
accumulated AIMessage is saved when thread_id is truthy, the checkpointer
exists and the merged history is non-empty; any exception (mid-stream provider
failure, or a failing save) is caught and surfaced as one final error
fragment. -/
def chatStream (env : Env) (store : Store) (history : List ChatMsg)
    (systemPrompt : Option String) (threadId : Option String) :
    List Event × Store :=
  let merged := mergedMessages env store history threadId
  let toSend := streamMessagesToSend env store history systemPrompt threadId
  match env.stream toSend with
  | .err chunks m =>
      (((chunks.filter fun c => c != "").map Event.frag)
        ++ [Event.frag ("Error during streaming: " ++ m)], store)
  | .ok chunks =>
      let yielded := chunks.filter fun c => c != ""
      let fullResponse := joinAll yielded
      let fragEvents := yielded.map Event.frag
      if truthy threadId && env.hasCheckpointer && !merged.isEmpty then
        match env.saveResult with
        | none =>
            let cp : Checkpoint :=
              ⟨placeholderTs, env.freshId, merged ++ [LCMessage.ai fullResponse],
                systemPrompt.getD ""⟩
            (fragEvents ++ [Event.save],
              saveCheckpoint store (threadId.getD "") cp)
        | some m =>
            (fragEvents ++ [Event.save,
              Event.frag ("Error during streaming: " ++ m)], store)
      else (fragEvents, store)

/-- The system string of the graph state chat invokes the agent with: when a
previous checkpoint is merged (truthy thread_id, checkpointer, checkpoint
present, formatted history non-empty) the whole state dictionary is replaced
by the checkpoint, so its stored system string is used; otherwise
system_prompt or the empty string (langgraph_agent.py lines 128-143). -/
def chatSystem (env : Env) (store : Store) (history : List ChatMsg)
    (systemPrompt : Option String) (threadId : Option String) : String :=
  let formatted := formatMessagesForGraph history
  if truthy threadId && env.hasCheckpointer then
    match getCheckpoint store (threadId.getD "") with
    | some cp => if formatted.isEmpty then systemPrompt.getD "" else cp.system
    | none => systemPrompt.getD ""
  else systemPrompt.getD ""

/-- The message list agent_node sends to the provider's invoke call inside
chat: the state's messages, with a SystemMessage inserted at the front when
the state's system string is truthy (langgraph_agent.py lines 85-88). -/
def chatMessagesForLLM (env : Env) (store : Store) (history : List ChatMsg)
    (systemPrompt : Option String) (threadId : Option String) : List LCMessage :=
  let sys := chatSystem env store history systemPrompt threadId
  let msgs := mergedMessages env store history threadId
  if sys = "" then msgs else LCMessage.system sys :: msgs

/-- chat of langgraph_agent.py: build the initial state (merging a previous
checkpoint when applicable), run agent_node — which catches provider errors
and appends a fallback AIMessage carrying the error text — save a checkpoint
of the final state's messages when thread_id is truthy and a checkpointer
exists (a failing save is caught by the outer handler, which returns an error
string), and return the content of the last message. -/
def chat (env : Env) (store : Store) (history : List ChatMsg)
    (systemPrompt : Option String) (threadId : Option String) :
    String × Store :=
  let initialMessages := mergedMessages env store history threadId
  let sys := chatSystem env store history systemPrompt threadId
  let finalMessages :=
    match env.invoke (chatMessagesForLLM env store history systemPrompt threadId) with
    | .ok resp => initialMessages ++ [LCMessage.ai resp]
    | .error e =>
        initialMessages
          ++ [LCMessage.ai ("I encountered an error processing your request: " ++ e)]
  let lastContent :=
    match finalMessages.getLast? with
    | some m => m.content
    | none => ""
  if truthy threadId && env.hasCheckpointer then
    match env.saveResult with
    | none =>
        (lastContent,
          saveCheckpoint store (threadId.getD "")
            ⟨placeholderTs, env.freshId, finalMessages, sys⟩)
    | some m => ("Error communicating with Claude: " ++ m, store)
  else (lastContent, store)

/-- get_conversation_history of langgraph_agent.py: with no checkpointer
return None; otherwise return the latest checkpoint's messages, or None if
absent. -/
def get_conversation_history (env : Env) (store : Store) (tid : String) :
    Option (List LCMessage) :=
  if env.hasCheckpointer then
    match getCheckpoint store tid with
    | some cp => some cp.messages
    | none => none
  else none

/-- The fragments of a trace, in order. -/
def fragsOf : List Event → List String
  | [] => []
  | .frag s :: rest => s :: fragsOf rest
  | .save :: rest => fragsOf rest

/-- The number of checkpoint-save attempts in a trace. -/
def countSaves : List Event → Nat
  | [] => 0
  | .frag _ :: rest => countSaves rest
  | .save :: rest => countSaves rest + 1

/-- Checks that once a save attempt occurs, the remainder of the trace holds
no further save attempt and at most one fragment (the error sentinel a failed
save produces): the save is never interleaved with response delivery. -/
def savesTailOk : List Event → Bool
  | [] => true
  | .frag _ :: rest => savesTailOk rest
  | .save :: rest =>
      match rest with
      | [] => true
      | [.frag _] => true
      | _ => false

/-- The condition under which chat_stream attempts a checkpoint save: the
provider stream completed without raising, thread_id is truthy, a checkpointer
exists, and the merged history is non-empty. -/
def saveAttempted (env : Env) (store : Store) (history : List ChatMsg)
    (systemPrompt : Option String) (threadId : Option String) : Bool :=
  (env.stream (streamMessagesToSend env store history systemPrompt threadId)).isOk
    && truthy threadId && env.hasCheckpointer
    && !(mergedMessages env store history threadId).isEmpty

/-- The hard-coded system prompt app.py's handle_message always passes. -/
def defaultSystemPrompt : String :=
  "You are Claude, a helpful and friendly AI assistant. Be concise in your responses."

/-- The outcome of one handle_message call in app.py: the chunks emitted to
the client, the final assistant response, how many fallback blocking chat
calls were made, the resulting store, and the session history. -/
structure HandlerResult where
  chunksEmitted : List String
  response : String
  fallbacks : Nat
  store : Store
  sessionHistory : List ChatMsg
  deriving Repr

/-- handle_message of app.py (agent present): append the user message to the
session history, stream via chat_stream accumulating truthy chunks, and if the
accumulated response is empty fall back to exactly one blocking chat call on
the same candidate history; append the assistant response (when non-empty) to
the session history. -/
def handleMessage (env : Env) (store : Store) (session : List ChatMsg)
    (threadId : String) (userMessage : String) : HandlerResult :=
  let hist := session ++ [⟨"user", userMessage⟩]
  let result := chatStream env store hist (some defaultSystemPrompt) (some threadId)
  let frags := (fragsOf result.1).filter fun c => c != ""
  let assistantResponse := joinAll frags
  if assistantResponse = "" then
    let fb := chat env result.2 hist (some defaultSystemPrompt) (some threadId)
    let sess := if fb.1 = "" then hist else hist ++ [⟨"assistant", fb.1⟩]
    ⟨frags ++ [fb.1], fb.1, 1, fb.2, sess⟩
  else
    ⟨frags, assistantResponse, 0, result.2,
      hist ++ [⟨"assistant", assistantResponse⟩]⟩

/-- Outcome of constructing the MongoDB checkpointer.  Modelled from the spec:
the MongoCheckpointer source file is missing from the repository snapshot; per
the spec its construction validates the persistence endpoint and raises when
the endpoint is missing or unreachable. -/
inductive MongoInit where
  | ok
  | raises (msg : String)
  deriving DecidableEq, Repr

/-- Outcome of constructing the ChatAnthropic client. -/
inductive LLMInit where
  | ok
  | raises (msg : String)
  deriving DecidableEq, Repr

/-- Result of ClaudeLangGraphAgent construction: either a ValueError escapes
(fatal), or an agent is produced, with or without a checkpointer. -/
inductive InitOutcome where
  | fatal (msg : String)
  | agent (hasCheckpointer : Bool)
  deriving DecidableEq, Repr

/-- ClaudeLangGraphAgent.__init__: raise when the API key is absent or the
ChatAnthropic client fails to construct; a failure constructing the MongoDB
checkpointer is caught, logged, and the agent continues with no checkpointer
(langgraph_agent.py lines 40-78). -/
def agentInit (apiKeySet : Bool) (llm : LLMInit) (mongo : MongoInit)
    (useMongo : Bool) : InitOutcome :=
  if apiKeySet then
    match llm with
    | .raises m => .fatal ("Failed to initialize ChatAnthropic: " ++ m)
    | .ok =>
        if useMongo then
          match mongo with
          | .ok => .agent true
          | .raises _ => .agent false
        else .agent false
  else .fatal "ANTHROPIC_API_KEY not found in environment variables."

/-- State of the server process after startup. -/
inductive AppStartup where
  | aborted (msg : String)
  | serving (agent : Option Bool)
  deriving DecidableEq, Repr

/-- Whether startup aborted the process. -/
def AppStartup.isAborted : AppStartup → Bool
  | .aborted _ => true
  | .serving _ => false

/-- Module-level agent construction in app.py lines 82-93: the agent is only
constructed when the API key is present; any exception from construction is
caught, claude_agent is set to None, and the server continues serving in every
case. -/
def appStartup (apiKeySet : Bool) (llm : LLMInit) (mongo : MongoInit) : AppStartup :=
  if apiKeySet then
    match agentInit apiKeySet llm mongo true with
    | .fatal _ => .serving none
    | .agent ck => .serving (some ck)
  else .serving none

/-! Helper lemmas. -/

theorem string_append_ne_empty_left (a b : String) (h : a ≠ "") : a ++ b ≠ "" := by
  intro hab
  apply h
  have hd := congrArg String.data hab
  rw [String.data_append] at hd
  have ha : a.data = [] := (List.append_eq_nil.mp hd).1
  exact String.ext ha

theorem joinAll_filter_ne (l : List String) :
    joinAll (l.filter fun c => c != "") = joinAll l := by
  induction l with
  | nil => rfl
  | cons s rest ih =>
      by_cases hs : s = ""
      · subst hs
        simp [List.filter, joinAll, ih]
      · have : (s != "") = true := by simp [hs]
        simp [List.filter, this, joinAll, ih]

theorem joinAll_ne_empty (l : List String) (h1 : ∀ s ∈ l, s ≠ "") (h2 : l ≠ []) :
    joinAll l ≠ "" := by
  cases l with
  | nil => exact absurd rfl h2
  | cons s rest =>
      exact string_append_ne_empty_left s (joinAll rest) (h1 s (List.mem_cons_self s rest))

theorem fragsOf_append (a b : List Event) : fragsOf (a ++ b) = fragsOf a ++ fragsOf b := by
  induction a with
  | nil => rfl
  | cons e rest ih => cases e <;> simp [fragsOf, ih]

theorem fragsOf_map_frag (l : List String) : fragsOf (l.map Event.frag) = l := by
  induction l with
  | nil => rfl
  | cons s rest ih => simp [fragsOf, ih]

theorem countSaves_append (a b : List Event) :
    countSaves (a ++ b) = countSaves a + countSaves b := by
  induction a with
  | nil => simp [countSaves]
  | cons e rest ih => cases e <;> simp [countSaves, ih] <;> omega

theorem countSaves_map_frag (l : List String) : countSaves (l.map Event.frag) = 0 := by
  induction l with
  | nil => rfl
  | cons s rest ih => simp [countSaves, ih]

theorem getCheckpoint_saveCheckpoint (s : Store) (tid : String) (cp : Checkpoint) :
    getCheckpoint (saveCheckpoint s tid cp) tid = some cp := by
  induction s with
  | nil => simp [saveCheckpoint, getCheckpoint]
  | cons kv rest ih =>
      obtain ⟨k, v⟩ := kv
      by_cases hk : k = tid
      · simp [saveCheckpoint, hk, getCheckpoint]
      · simp [saveCheckpoint, hk, getCheckpoint, ih]

theorem formatMessagesForGraph_append (a b : List ChatMsg) :
    formatMessagesForGraph (a ++ b) =
      formatMessagesForGraph a ++ formatMessagesForGraph b := by
  induction a with
  | nil => rfl
  | cons m rest ih =>
      by_cases h1 : m.role = "user"
      · simp [formatMessagesForGraph, h1, ih]
      · by_cases h2 : m.role = "assistant"
        · simp [formatMessagesForGraph, h1, h2, ih]
        · simp [formatMessagesForGraph, h1, h2, ih]

theorem mem_filter_ne_empty {l : List String} {f : String}
    (h : f ∈ l.filter fun c => c != "") : f ≠ "" := by
  have := (List.mem_filter.mp h).2
  simpa using this

theorem sentinel_ne_empty (m : String) : "Error during streaming: " ++ m ≠ "" := by
  apply string_append_ne_empty_left
  decide

theorem chatStream_frags_ne_empty (env : Env) (store : Store) (history : List ChatMsg)
    (systemPrompt : Option String) (threadId : Option String) :
    ∀ f ∈ fragsOf (chatStream env store history systemPrompt threadId).1, f ≠ "" := by
  intro f hf
  cases hstr : env.stream (streamMessagesToSend env store history systemPrompt threadId) with
  | err chunks m =>
      simp only [chatStream, hstr] at hf
      simp only [fragsOf_append, fragsOf_map_frag, fragsOf, List.mem_append] at hf
      rcases hf with hf | hf
      · exact mem_filter_ne_empty hf
      · simp at hf
        subst hf
        exact sentinel_ne_empty m
  | ok chunks =>
      simp only [chatStream, hstr] at hf
      by_cases hcond : (truthy threadId && env.hasCheckpointer
          && !(mergedMessages env store history threadId).isEmpty) = true
      · simp only [hcond, if_true] at hf
        cases hsave : env.saveResult with
        | none =>
            rw [hsave] at hf
            simp only [fragsOf_append, fragsOf_map_frag, fragsOf, List.mem_append] at hf
            rcases hf with hf | hf
            · exact mem_filter_ne_empty hf
            · simp [fragsOf] at hf
        | some m =>
            rw [hsave] at hf
            simp only [fragsOf_append, fragsOf_map_frag, fragsOf, List.mem_append] at hf
            rcases hf with hf | hf
            · exact mem_filter_ne_empty hf
            · simp [fragsOf] at hf
              subst hf
              exact sentinel_ne_empty m
      · simp only [hcond, if_false, Bool.false_eq_true] at hf
        rw [fragsOf_map_frag] at hf
        exact mem_filter_ne_empty hf

/-! Concrete environments and stores used to evaluate the claims. -/

/-- A simple deterministic environment: checkpointer available, saves succeed,
the provider streams one chunk "R" and invoke returns "R". -/
def envSimple : Env := ⟨true, "cp1", none, fun _ => .ok ["R"], fun _ => .ok "R"⟩

/-- Environment whose save_checkpoint raises, streaming "Hi". -/
def envSaveFail : Env :=
  ⟨true, "cp1", some "db down", fun _ => .ok ["Hi"], fun _ => .ok "Hi"⟩

/-- Same environment with a succeeding save. -/
def envSaveOk : Env := ⟨true, "cp1", none, fun _ => .ok ["Hi"], fun _ => .ok "Hi"⟩

/-- Environment whose provider stream raises mid-stream after one chunk. -/
def envErr : Env :=
  ⟨true, "cp1", none, fun _ => .err ["pa"] "rate limited", fun _ => .ok "R"⟩

/-- Environment whose blocking invoke raises an authentication failure. -/
def envAuth : Env :=
  ⟨true, "cp1", none, fun _ => .ok [], fun _ => .error "invalid x-api-key"⟩

/-- The content of the leading system message of a message list, if any. -/
def headSystem : List LCMessage → String
  | .system s :: _ => s
  | _ => "none"

/-- A deterministic coherent provider whose answer is the content of the
leading system message: streaming yields it as one chunk, invoke returns it. -/
def envC5 : Env :=
  ⟨true, "cp1", none, fun ms => .ok [headSystem ms], fun ms => .ok (headSystem ms)⟩

/-- A store holding a checkpoint for thread t whose stored system string is X. -/
def storeC5 : Store := [("t", ⟨placeholderTs, "cp0", [LCMessage.human "A"], "X"⟩)]

/-- A deterministic coherent provider streaming "He", "llo" with a matching
blocking answer. -/
def envHello : Env :=
  ⟨false, "cp1", none, fun _ => .ok ["He", "llo"], fun _ => .ok (joinAll ["He", "llo"])⟩

/-- A store holding a two-message checkpoint for thread t. -/
def storeC1 : Store :=
  [("t", ⟨placeholderTs, "cp0", [LCMessage.human "A", LCMessage.ai "B"], ""⟩)]

/-- The session history app.py holds after loading that same persisted
history into the session (index route, history_loaded). -/
def sessionC1 : List ChatMsg := [⟨"user", "A"⟩, ⟨"assistant", "B"⟩]

/-- Checks that a message list carries no system directive. -/
def noSystemDirective (l : List LCMessage) : Bool :=
  l.all fun m => match m with | .system _ => false | _ => true

/-! Further helper lemmas about the embedding. -/

theorem mergedMessages_of_empty (env : Env) (store : Store) (history : List ChatMsg)
    (threadId : Option String) (hfmt : formatMessagesForGraph history = []) :
    mergedMessages env store history threadId = [] := by
  unfold mergedMessages
  rw [hfmt]
  cases htc : (truthy threadId && env.hasCheckpointer) with
  | false => simp
  | true =>
      simp only [if_true]
      cases getCheckpoint store (threadId.getD "") <;> simp

theorem savesTailOk_map_frag_append (l : List String) (t : List Event) :
    savesTailOk (l.map Event.frag ++ t) = savesTailOk t := by
  induction l with
  | nil => rfl
  | cons s rest ih => simp [savesTailOk, ih]

theorem savesTailOk_map_frag (l : List String) : savesTailOk (l.map Event.frag) = true := by
  have := savesTailOk_map_frag_append l []
  simpa using this

theorem infix_append_right {α : Type} (l c d : List α) (h : l <:+: c) :
    l <:+: c ++ d := by
  rcases h with ⟨s, t, rfl⟩
  exact ⟨s, t ++ d, by simp⟩

/-! Claim theorems. -/

/-- C9: the message-formatting step preserves the relative order of messages,
maps role user to a human message and role assistant to an AI message, and
silently drops every message with any other role (including system): it is
exactly the order-preserving filterMap of that role translation over the
history, and it distributes over concatenation. -/
theorem c9_format_is_role_filterMap (h h2 : List ChatMsg) :
    formatMessagesForGraph h =
      h.filterMap (fun m =>
        if m.role = "user" then some (LCMessage.human m.text)
        else if m.role = "assistant" then some (LCMessage.ai m.text)
        else none) ∧
      formatMessagesForGraph (h ++ h2) =
        formatMessagesForGraph h ++ formatMessagesForGraph h2 := by
  refine ⟨?_, formatMessagesForGraph_append h h2⟩
  induction h with
  | nil => rfl
  | cons m rest ih =>
      by_cases h1 : m.role = "user"
      · simp [formatMessagesForGraph, List.filterMap_cons, h1, ih]
      · by_cases hA : m.role = "assistant"
        · simp [formatMessagesForGraph, List.filterMap_cons, h1, hA, ih]
        · simp [formatMessagesForGraph, List.filterMap_cons, h1, hA, ih]

/-- C10: if chat_stream is called with a history that formats to an empty
message list, no checkpoint is saved for the thread even when a truthy
thread_id is supplied and the checkpointer is available: the store is
unchanged by the call and the trace holds no save attempt. -/
theorem c10_no_save_on_empty_formatted (env : Env) (store : Store)
    (history : List ChatMsg) (systemPrompt threadId : Option String)
    (hfmt : formatMessagesForGraph history = [])
    (htid : truthy threadId = true) (hck : env.hasCheckpointer = true) :
    (chatStream env store history systemPrompt threadId).2 = store ∧
      countSaves (chatStream env store history systemPrompt threadId).1 = 0 := by
  have hm := mergedMessages_of_empty env store history threadId hfmt
  cases hstr : env.stream (streamMessagesToSend env store history systemPrompt threadId) with
  | err chunks m =>
      constructor
      · simp [chatStream, hstr]
      · simp [chatStream, hstr, countSaves_append, countSaves_map_frag, countSaves]
  | ok chunks =>
      have hcond : (truthy threadId && env.hasCheckpointer
          && !(mergedMessages env store history threadId).isEmpty) = false := by
        rw [hm]
        simp
      constructor
      · simp [chatStream, hstr, hcond]
      · simp [chatStream, hstr, hcond, countSaves_map_frag]

/-- Witness for C10 at a concrete input: a history consisting of one message
of role system formats to the empty list, and the call leaves the non-trivial
concrete store untouched with no save attempt. -/
theorem c10_witness :
    (chatStream envSimple storeC1 [⟨"system", "s"⟩] none (some "t")).2 = storeC1 ∧
      countSaves (chatStream envSimple storeC1 [⟨"system", "s"⟩] none (some "t")).1 = 0 :=
  c10_no_save_on_empty_formatted envSimple storeC1 [⟨"system", "s"⟩] none (some "t")
    (by decide) (by decide) (by decide)

/-- C2 counterexample: with the API key present and the LLM client constructed,
a failure to initialize the persistence layer (e.g. missing MONGODB_URI) does
not abort the process: startup completes and the server serves requests with
an agent that has no checkpointer. -/
theorem c2_counterexample :
    (appStartup true LLMInit.ok (MongoInit.raises "MONGODB_URI not set")).isAborted
        = false ∧
      appStartup true LLMInit.ok (MongoInit.raises "MONGODB_URI not set") =
        AppStartup.serving (some false) := by
  exact ⟨rfl, rfl⟩

/-- C2 amended: startup never aborts the process — in particular, when the
persistence layer cannot be initialized the agent logs the failure and
continues serving without checkpointing (the silent in-memory fallback the
claim rules out is exactly what the code does). -/
theorem c2_amended_startup_never_aborts (k : Bool) (l : LLMInit) (mo : MongoInit) :
    (appStartup k l mo).isAborted = false ∧
      appStartup true LLMInit.ok (MongoInit.raises "MONGODB_URI not set") =
        AppStartup.serving (some false) := by
  constructor
  · cases k with
    | false => rfl
    | true =>
        cases l with
        | ok => cases mo <;> rfl
        | raises m => rfl
  · rfl

/-- C4 counterexample: with system_prompt None on a plain user history, both
chat_stream and the blocking chat invoke the model with no system directive at
all — the list each sends is exactly the formatted history. -/
theorem c4_counterexample :
    streamMessagesToSend envSimple [] [⟨"user", "hi"⟩] none (some "t") =
        [LCMessage.human "hi"] ∧
      chatMessagesForLLM envSimple [] [⟨"user", "hi"⟩] none (some "t") =
        [LCMessage.human "hi"] ∧
      noSystemDirective
        (streamMessagesToSend envSimple [] [⟨"user", "hi"⟩] none (some "t")) = true ∧
      noSystemDirective
        (chatMessagesForLLM envSimple [] [⟨"user", "hi"⟩] none (some "t")) = true := by
  exact ⟨by decide, by decide, by decide, by decide⟩

/-- C4 amended: a system_prompt of None never causes a built-in default
directive to be applied.  Unconditionally, for every store, history and thread
id: chat_stream sends exactly the merged history with no directive prepended,
and the list chat sends is either exactly the merged history (no directive at
all — the case whenever no previous checkpoint is merged, and also when the
merged checkpoint's stored system string is empty) or the merged history with
that same checkpoint's stored system string prepended — in no case a built-in
default. -/
theorem c4_amended_none_means_no_directive (env : Env) (store : Store)
    (history : List ChatMsg) (threadId : Option String) :
    streamMessagesToSend env store history none threadId =
        mergedMessages env store history threadId ∧
      (chatMessagesForLLM env store history none threadId =
          mergedMessages env store history threadId ∨
        ∃ cp, getCheckpoint store (threadId.getD "") = some cp ∧
          chatMessagesForLLM env store history none threadId =
            LCMessage.system cp.system :: mergedMessages env store history threadId) := by
  constructor
  · simp [streamMessagesToSend, truthy]
  · by_cases htc : (truthy threadId && env.hasCheckpointer) = true
    · cases hcp : getCheckpoint store (threadId.getD "") with
      | none =>
          left
          have hsys : chatSystem env store history none threadId = "" := by
            simp [chatSystem, htc, hcp]
          simp [chatMessagesForLLM, hsys]
      | some cp =>
          cases hfie : (formatMessagesForGraph history).isEmpty with
          | true =>
              left
              have hsys : chatSystem env store history none threadId = "" := by
                simp [chatSystem, htc, hcp, hfie]
              simp [chatMessagesForLLM, hsys]
          | false =>
              have hsys : chatSystem env store history none threadId = cp.system := by
                simp [chatSystem, htc, hcp, hfie]
              by_cases hcs : cp.system = ""
              · left
                simp [chatMessagesForLLM, hsys, hcs]
              · right
                refine ⟨cp, rfl, ?_⟩
                simp [chatMessagesForLLM, hsys, hcs]
    · left
      have hsys : chatSystem env store history none threadId = "" := by
        simp [chatSystem, htc]
      simp [chatMessagesForLLM, hsys]

/-- C8 amended: in the chat_stream trace, at most one checkpoint-save attempt
occurs, every save attempt happens strictly after all model-produced fragments
(the only fragment that can follow a save attempt is the single error sentinel
reporting that save's failure), and a save attempt occurs precisely when the
stream completed without raising, the thread id is truthy, the checkpointer is
present and the merged history is non-empty — so persistence is attempted at
most once, not exactly once, per request. -/
theorem c8_amended_save_after_frags (env : Env) (store : Store)
    (history : List ChatMsg) (systemPrompt threadId : Option String) :
    countSaves (chatStream env store history systemPrompt threadId).1 ≤ 1 ∧
      savesTailOk (chatStream env store history systemPrompt threadId).1 = true ∧
      (countSaves (chatStream env store history systemPrompt threadId).1 = 1 ↔
        saveAttempted env store history systemPrompt threadId = true) := by
  cases hstr : env.stream (streamMessagesToSend env store history systemPrompt threadId) with
  | err chunks m =>
      have hsa : saveAttempted env store history systemPrompt threadId = false := by
        simp [saveAttempted, hstr, StreamOutcome.isOk]
      refine ⟨?_, ?_, ?_⟩
      · simp [chatStream, hstr, countSaves_append, countSaves_map_frag, countSaves]
      · simp only [chatStream, hstr]
        rw [savesTailOk_map_frag_append]
        rfl
      · simp [chatStream, hstr, countSaves_append, countSaves_map_frag, countSaves, hsa]
  | ok chunks =>
      have hsa : saveAttempted env store history systemPrompt threadId =
          (truthy threadId && env.hasCheckpointer
            && !(mergedMessages env store history threadId).isEmpty) := by
        simp [saveAttempted, hstr, StreamOutcome.isOk]
      by_cases hcond : (truthy threadId && env.hasCheckpointer
          && !(mergedMessages env store history threadId).isEmpty) = true
      · cases hsave : env.saveResult with
        | none =>
            refine ⟨?_, ?_, ?_⟩
            · simp [chatStream, hstr, hcond, hsave, countSaves_append,
                countSaves_map_frag, countSaves]
            · simp only [chatStream, hstr, hcond, if_true, hsave]
              rw [savesTailOk_map_frag_append]
              rfl
            · simp [chatStream, hstr, hcond, hsave, countSaves_append,
                countSaves_map_frag, countSaves, hsa]
        | some m =>
            refine ⟨?_, ?_, ?_⟩
            · simp [chatStream, hstr, hcond, hsave, countSaves_append,
                countSaves_map_frag, countSaves]
            · simp only [chatStream, hstr, hcond, if_true, hsave]
              rw [savesTailOk_map_frag_append]
              rfl
            · simp [chatStream, hstr, hcond, hsave, countSaves_append,
                countSaves_map_frag, countSaves, hsa]
      · refine ⟨?_, ?_, ?_⟩
        · simp [chatStream, hstr, hcond, countSaves_map_frag]
        · simp only [chatStream, hstr, hcond, if_false, Bool.false_eq_true]
          rw [savesTailOk_map_frag]
        · simp [chatStream, hstr, hcond, countSaves_map_frag, hsa]

/-- C8 counterexample: a streaming request with a truthy thread id, an
available checkpointer and a non-empty history, in which the provider raises
mid-stream: fragments are delivered (including the error sentinel) but
persistence is attempted zero times, not exactly once. -/
theorem c8_counterexample :
    countSaves (chatStream envErr [] [⟨"user", "hi"⟩] (some "sys") (some "t")).1 = 0 ∧
      fragsOf (chatStream envErr [] [⟨"user", "hi"⟩] (some "sys") (some "t")).1 =
        ["pa", "Error during streaming: rate limited"] := by
  exact ⟨by decide, by decide⟩

/-- C7: the handler performs exactly one fallback blocking chat call when the
stream yielded no fragments (every fragment chat_stream can yield, error
sentinels included, is non-empty, so any yielded fragment suppresses the
fallback), and zero otherwise; when it falls back, the response is the
blocking chat result on the same candidate history, otherwise the
concatenation of the streamed fragments. -/
theorem c7_fallback_iff_stream_empty (env : Env) (store : Store)
    (session : List ChatMsg) (threadId userMessage : String) :
    (handleMessage env store session threadId userMessage).fallbacks =
      (if fragsOf (chatStream env store (session ++ [⟨"user", userMessage⟩])
          (some defaultSystemPrompt) (some threadId)).1 = [] then 1 else 0) ∧
      (handleMessage env store session threadId userMessage).response =
        (if fragsOf (chatStream env store (session ++ [⟨"user", userMessage⟩])
            (some defaultSystemPrompt) (some threadId)).1 = [] then
          (chat env (chatStream env store (session ++ [⟨"user", userMessage⟩])
              (some defaultSystemPrompt) (some threadId)).2
            (session ++ [⟨"user", userMessage⟩])
            (some defaultSystemPrompt) (some threadId)).1
        else joinAll (fragsOf (chatStream env store (session ++ [⟨"user", userMessage⟩])
            (some defaultSystemPrompt) (some threadId)).1)) := by
  have hne := chatStream_frags_ne_empty env store (session ++ [⟨"user", userMessage⟩])
    (some defaultSystemPrompt) (some threadId)
  have hfilter : (fragsOf (chatStream env store (session ++ [⟨"user", userMessage⟩])
      (some defaultSystemPrompt) (some threadId)).1).filter (fun c => c != "") =
      fragsOf (chatStream env store (session ++ [⟨"user", userMessage⟩])
        (some defaultSystemPrompt) (some threadId)).1 := by
    apply List.filter_eq_self.mpr
    intro a ha
    simpa using hne a ha
  by_cases hempty : fragsOf (chatStream env store (session ++ [⟨"user", userMessage⟩])
      (some defaultSystemPrompt) (some threadId)).1 = []
  · have hjoin : joinAll ((fragsOf (chatStream env store (session ++ [⟨"user", userMessage⟩])
        (some defaultSystemPrompt) (some threadId)).1).filter (fun c => c != "")) = "" := by
      rw [hfilter, hempty]
      rfl
    constructor
    · simp only [handleMessage]
      rw [hjoin, if_pos rfl, if_pos hempty]
    · simp only [handleMessage]
      rw [hjoin, if_pos rfl, if_pos hempty]
  · have hjoin : joinAll ((fragsOf (chatStream env store (session ++ [⟨"user", userMessage⟩])
        (some defaultSystemPrompt) (some threadId)).1).filter (fun c => c != "")) ≠ "" := by
      rw [hfilter]
      exact joinAll_ne_empty _ hne hempty
    constructor
    · simp only [handleMessage]
      rw [if_neg hjoin, if_neg hempty]
    · simp only [handleMessage]
      rw [if_neg hjoin, if_neg hempty, hfilter]

/-- C3 counterexample: on the same input, with the model stream succeeding
with fragment Hi, a failing checkpoint save changes the caller-visible
fragment sequence: an extra error fragment is yielded. -/
theorem c3_counterexample :
    fragsOf (chatStream envSaveFail [] [⟨"user", "hi"⟩] none (some "t")).1 =
        ["Hi", "Error during streaming: db down"] ∧
      fragsOf (chatStream envSaveOk [] [⟨"user", "hi"⟩] none (some "t")).1 = ["Hi"] ∧
      (["Hi", "Error during streaming: db down"] : List String) ≠ ["Hi"] := by
  exact ⟨by decide, by decide, by decide⟩

/-- C3 amended: when the model stream succeeds but save_checkpoint raises, the
caller-visible fragment sequence equals the sequence of the successful-save
run plus exactly one trailing error-sentinel fragment carrying the save
failure; the model-produced fragments themselves are unchanged. -/
theorem c3_amended_save_failure_appends_sentinel (env : Env) (store : Store)
    (history : List ChatMsg) (systemPrompt threadId : Option String)
    (m : String) (chunks : List String)
    (hsave : env.saveResult = some m)
    (hstr : env.stream (streamMessagesToSend env store history systemPrompt threadId)
        = .ok chunks)
    (hcond : (truthy threadId && env.hasCheckpointer
        && !(mergedMessages env store history threadId).isEmpty) = true) :
    fragsOf (chatStream env store history systemPrompt threadId).1 =
      fragsOf (chatStream { env with saveResult := none } store history
          systemPrompt threadId).1
        ++ ["Error during streaming: " ++ m] := by
  have hsend : streamMessagesToSend { env with saveResult := none } store history
      systemPrompt threadId
      = streamMessagesToSend env store history systemPrompt threadId := rfl
  have hmerge : mergedMessages { env with saveResult := none } store history threadId
      = mergedMessages env store history threadId := rfl
  simp only [chatStream, hsend, hmerge, hstr, hsave, hcond, if_true]
  simp [fragsOf_append, fragsOf_map_frag, fragsOf]

/-- Witness for C3 amended at a concrete input. -/
theorem c3_amended_witness :
    fragsOf (chatStream envSaveFail [] [⟨"user", "hi"⟩] none (some "t")).1 =
      fragsOf (chatStream { envSaveFail with saveResult := none } [] [⟨"user", "hi"⟩]
          none (some "t")).1
        ++ ["Error during streaming: " ++ "db down"] :=
  c3_amended_save_failure_appends_sentinel envSaveFail [] [⟨"user", "hi"⟩] none
    (some "t") "db down" ["Hi"] rfl rfl (by decide)

theorem sent_lists_eq (env : Env) (store : Store) (history : List ChatMsg)
    (systemPrompt threadId : Option String)
    (hsys : chatSystem env store history systemPrompt threadId = systemPrompt.getD "") :
    chatMessagesForLLM env store history systemPrompt threadId =
      streamMessagesToSend env store history systemPrompt threadId := by
  unfold chatMessagesForLLM streamMessagesToSend
  rw [hsys]
  cases systemPrompt with
  | none => simp [truthy]
  | some s =>
      by_cases hs : s = ""
      · subst hs
        simp [truthy]
      · simp [truthy, hs]

/-- C5 counterexample: with a deterministic coherent provider (its answer is
the content of the leading system message, streamed as one chunk), a store
whose checkpoint for thread t carries stored system string X, and a call with
system prompt Y: chat_stream sends Y as the directive and streams "Y", while
the blocking chat reuses the merged checkpoint's stored system X and returns
"X" — the concatenation of the streamed fragments differs from the blocking
result on the same input. -/
theorem c5_counterexample :
    joinAll (fragsOf (chatStream envC5 storeC5 [⟨"user", "M"⟩] (some "Y") (some "t")).1)
        = "Y" ∧
      (chat envC5 storeC5 [⟨"user", "M"⟩] (some "Y") (some "t")).1 = "X" ∧
      ("Y" : String) ≠ "X" := by
  exact ⟨by decide, by decide, by decide⟩

/-- C5 amended: with a deterministic coherent provider (streaming and blocking
answers agree under concatenation for every message list), a succeeding save,
and provided the system string chat's graph state ends up with equals the
supplied system prompt (always true when no previous checkpoint is merged; a
merged checkpoint overrides it with its stored system string), every fragment
chat_stream yields is non-empty and the concatenation of all fragments equals
the blocking chat result on the same input. -/
theorem c5_amended_concat_eq_blocking (env : Env) (store : Store)
    (history : List ChatMsg) (systemPrompt threadId : Option String)
    (hprov : ∀ ms, ∃ cs, env.stream ms = .ok cs ∧ env.invoke ms = .ok (joinAll cs))
    (hsave : env.saveResult = none)
    (hsys : chatSystem env store history systemPrompt threadId = systemPrompt.getD "") :
    (∀ f ∈ fragsOf (chatStream env store history systemPrompt threadId).1, f ≠ "") ∧
      joinAll (fragsOf (chatStream env store history systemPrompt threadId).1) =
        (chat env store history systemPrompt threadId).1 := by
  refine ⟨chatStream_frags_ne_empty env store history systemPrompt threadId, ?_⟩
  obtain ⟨cs, hs, hi⟩ := hprov (streamMessagesToSend env store history systemPrompt threadId)
  have hsent := sent_lists_eq env store history systemPrompt threadId hsys
  have hstream : fragsOf (chatStream env store history systemPrompt threadId).1 =
      cs.filter (fun c => c != "") := by
    by_cases hcond : (truthy threadId && env.hasCheckpointer
        && !(mergedMessages env store history threadId).isEmpty) = true
    · simp [chatStream, hs, hcond, hsave, fragsOf_append, fragsOf_map_frag, fragsOf]
    · simp [chatStream, hs, hcond, fragsOf_map_frag]
  have hinvoke : env.invoke (chatMessagesForLLM env store history systemPrompt threadId)
      = .ok (joinAll cs) := by
    rw [hsent]
    exact hi
  have hchat : (chat env store history systemPrompt threadId).1 = joinAll cs := by
    simp only [chat, hinvoke]
    cases htc : (truthy threadId && env.hasCheckpointer) with
    | false => simp [htc, List.getLast?_concat, LCMessage.content]
    | true => simp [htc, hsave, List.getLast?_concat, LCMessage.content]
  rw [hstream, hchat, joinAll_filter_ne]

/-- Witness for C5 amended at a concrete input: the envHello provider streams
"He", "llo" and answers their concatenation; with no thread id, concatenating
the streamed fragments equals the blocking result. -/
theorem c5_amended_witness :
    joinAll (fragsOf (chatStream envHello [] [⟨"user", "hi"⟩] none none).1) =
      (chat envHello [] [⟨"user", "hi"⟩] none none).1 :=
  (c5_amended_concat_eq_blocking envHello [] [⟨"user", "hi"⟩] none none
    (fun _ => ⟨["He", "llo"], rfl, rfl⟩) rfl rfl).2

/-- C6 counterexample: on an authentication failure from invoke, chat returns
the agent node's fallback string, which does not contain the substring
"Error" (only lower-case "error"); moreover persistence IS attempted (see the
amended theorem), contradicting the claim at this input. -/
theorem c6_counterexample :
    (chat envAuth [] [⟨"user", "hi"⟩] none (some "t")).1 =
        "I encountered an error processing your request: invalid x-api-key" ∧
      ¬ ("Error".toList <:+:
        "I encountered an error processing your request: invalid x-api-key".toList) := by
  exact ⟨by decide, by decide⟩

/-- C6 amended: when the provider raises an authentication (or any) failure
during the blocking invoke, chat returns the agent node's fallback string
"I encountered an error processing your request: " followed by the provider's
message — a string containing "error" in lower case, though not necessarily
"Error" — and a checkpoint IS persisted for the thread whose last message is
that well-formed fallback assistant message. -/
theorem c6_amended_fallback_persisted (env : Env) (store : Store)
    (history : List ChatMsg) (systemPrompt : Option String) (tid m : String)
    (htid : tid ≠ "") (hck : env.hasCheckpointer = true)
    (hsave : env.saveResult = none)
    (hinv : env.invoke (chatMessagesForLLM env store history systemPrompt (some tid))
        = .error m) :
    (chat env store history systemPrompt (some tid)).1 =
        "I encountered an error processing your request: " ++ m ∧
      "error".toList <:+: (chat env store history systemPrompt (some tid)).1.toList ∧
      getCheckpoint (chat env store history systemPrompt (some tid)).2 tid =
        some ⟨placeholderTs, env.freshId,
          mergedMessages env store history (some tid)
            ++ [LCMessage.ai ("I encountered an error processing your request: " ++ m)],
          chatSystem env store history systemPrompt (some tid)⟩ := by
  have htr : truthy (some tid) = true := by
    simp [truthy, htid]
  have hchat : chat env store history systemPrompt (some tid) =
      ("I encountered an error processing your request: " ++ m,
        saveCheckpoint store tid
          ⟨placeholderTs, env.freshId,
            mergedMessages env store history (some tid)
              ++ [LCMessage.ai ("I encountered an error processing your request: " ++ m)],
            chatSystem env store history systemPrompt (some tid)⟩) := by
    simp [chat, hinv, htr, hck, hsave, List.getLast?_concat, LCMessage.content]
  refine ⟨?_, ?_, ?_⟩
  · rw [hchat]
  · rw [hchat]
    have hlist : ("I encountered an error processing your request: " ++ m).toList =
        "I encountered an error processing your request: ".toList ++ m.toList := by
      simp [String.toList, String.data_append]
    simp only [hlist]
    exact infix_append_right _ _ _ (by decide)
  · rw [hchat]
    exact getCheckpoint_saveCheckpoint store tid _

/-- Witness for C6 amended at a concrete input. -/
theorem c6_amended_witness :
    (chat envAuth [] [⟨"user", "hi"⟩] none (some "t")).1 =
        "I encountered an error processing your request: " ++ "invalid x-api-key" ∧
      "error".toList <:+: (chat envAuth [] [⟨"user", "hi"⟩] none (some "t")).1.toList ∧
      getCheckpoint (chat envAuth [] [⟨"user", "hi"⟩] none (some "t")).2 "t" =
        some ⟨placeholderTs, envAuth.freshId,
          mergedMessages envAuth [] [⟨"user", "hi"⟩] (some "t")
            ++ [LCMessage.ai ("I encountered an error processing your request: "
              ++ "invalid x-api-key")],
          chatSystem envAuth [] [⟨"user", "hi"⟩] none (some "t")⟩ :=
  c6_amended_fallback_persisted envAuth [] [⟨"user", "hi"⟩] none "t" "invalid x-api-key"
    (by decide) rfl rfl rfl

/-- C1 counterexample: thread t has persisted history [human A, ai B]; the
session history (as app.py loads it from the store) already holds the same two
messages; sending new user message M through the handler and reading the
thread's history back yields the persisted history twice (A, B, A, B, M,
reply) rather than exactly H + [user M, assistant reply]: messages are
duplicated. -/
theorem c1_counterexample :
    get_conversation_history envSimple
        (handleMessage envSimple storeC1 sessionC1 "t" "M").store "t" =
      some [LCMessage.human "A", LCMessage.ai "B", LCMessage.human "A",
        LCMessage.ai "B", LCMessage.human "M", LCMessage.ai "R"] ∧
      some [LCMessage.human "A", LCMessage.ai "B", LCMessage.human "A",
        LCMessage.ai "B", LCMessage.human "M", LCMessage.ai "R"] ≠
      some [LCMessage.human "A", LCMessage.ai "B", LCMessage.human "M",
        LCMessage.ai "R"] := by
  exact ⟨by decide, by decide⟩

/-- C1 amended: running the handler on a thread with persisted checkpoint cp,
when the stream succeeds with at least one truthy chunk and the save succeeds,
reading the history back yields the previously persisted messages followed by
the formatted session candidate history (which includes the new user message,
and repeats any persisted messages the session already holds) followed by one
assistant message: no previously persisted message is dropped (cp.messages is
a prefix of the result), but messages present both in the checkpoint and in
the session history appear twice. -/
theorem c1_amended_history_preserved_but_duplicated (env : Env) (store : Store)
    (session : List ChatMsg) (tid M : String) (cp : Checkpoint) (chunks : List String)
    (htid : tid ≠ "") (hck : env.hasCheckpointer = true)
    (hcp : getCheckpoint store tid = some cp)
    (hsave : env.saveResult = none)
    (hstr : env.stream (streamMessagesToSend env store (session ++ [⟨"user", M⟩])
        (some defaultSystemPrompt) (some tid)) = .ok chunks)
    (hne : chunks.filter (fun c => c != "") ≠ []) :
    get_conversation_history env (handleMessage env store session tid M).store tid =
        some (cp.messages ++ formatMessagesForGraph (session ++ [⟨"user", M⟩])
          ++ [LCMessage.ai (joinAll (chunks.filter fun c => c != ""))]) ∧
      cp.messages <+: (cp.messages ++ formatMessagesForGraph (session ++ [⟨"user", M⟩])
        ++ [LCMessage.ai (joinAll (chunks.filter fun c => c != ""))]) := by
  have htr : truthy (some tid) = true := by
    simp [truthy, htid]
  have hfmt1 : formatMessagesForGraph [(⟨"user", M⟩ : ChatMsg)] = [LCMessage.human M] := by
    simp [formatMessagesForGraph]
  have hfmt : formatMessagesForGraph (session ++ [⟨"user", M⟩]) =
      formatMessagesForGraph session ++ [LCMessage.human M] := by
    rw [formatMessagesForGraph_append, hfmt1]
  have hfie : (formatMessagesForGraph (session ++ [⟨"user", M⟩])).isEmpty = false := by
    rw [hfmt]
    simp [List.isEmpty_iff]
  have hmerge : mergedMessages env store (session ++ [⟨"user", M⟩]) (some tid) =
      cp.messages ++ formatMessagesForGraph (session ++ [⟨"user", M⟩]) := by
    simp only [mergedMessages, htr, hck, Bool.and_self, if_true, Option.getD_some, hcp]
    simp [hfie]
  have hmie : (mergedMessages env store (session ++ [⟨"user", M⟩]) (some tid)).isEmpty
      = false := by
    rw [hmerge, hfmt]
    simp [List.isEmpty_iff]
  have hcond : (truthy (some tid) && env.hasCheckpointer
      && !(mergedMessages env store (session ++ [⟨"user", M⟩]) (some tid)).isEmpty)
      = true := by
    rw [htr, hck, hmie]
    rfl
  have hfrags : fragsOf (chatStream env store (session ++ [⟨"user", M⟩])
      (some defaultSystemPrompt) (some tid)).1 = chunks.filter (fun c => c != "") := by
    simp [chatStream, hstr, hcond, hsave, fragsOf_append, fragsOf_map_frag, fragsOf]
  have hstore : (chatStream env store (session ++ [⟨"user", M⟩])
      (some defaultSystemPrompt) (some tid)).2 =
      saveCheckpoint store tid
        ⟨placeholderTs, env.freshId,
          mergedMessages env store (session ++ [⟨"user", M⟩]) (some tid)
            ++ [LCMessage.ai (joinAll (chunks.filter fun c => c != ""))],
          (some defaultSystemPrompt).getD ""⟩ := by
    simp [chatStream, hstr, hcond, hsave]
  have hff : ((chunks.filter (fun c => c != "")).filter (fun c => c != ""))
      = chunks.filter (fun c => c != "") :=
    List.filter_eq_self.mpr (fun a ha => (List.mem_filter.mp ha).2)
  have hjoin_ne : joinAll (chunks.filter (fun c => c != "")) ≠ "" :=
    joinAll_ne_empty _ (fun s hs => mem_filter_ne_empty hs) hne
  have hhstore : (handleMessage env store session tid M).store =
      (chatStream env store (session ++ [⟨"user", M⟩])
        (some defaultSystemPrompt) (some tid)).2 := by
    simp only [handleMessage, hfrags, hff]
    rw [if_neg hjoin_ne]
  constructor
  · rw [hhstore, hstore]
    unfold get_conversation_history
    rw [hck]
    simp only [if_true]
    rw [getCheckpoint_saveCheckpoint]
    rw [hmerge, List.append_assoc]
  · exact ⟨formatMessagesForGraph (session ++ [⟨"user", M⟩])
      ++ [LCMessage.ai (joinAll (chunks.filter fun c => c != ""))],
      (List.append_assoc _ _ _).symm⟩

/-- Witness for C1 amended at a concrete input: the counterexample scenario,
showing the amended description (persisted prefix kept, session duplicated,
assistant appended) holds there. -/
theorem c1_amended_witness :
    get_conversation_history envSimple
        (handleMessage envSimple storeC1 sessionC1 "t" "M").store "t" =
        some ([LCMessage.human "A", LCMessage.ai "B"]
          ++ formatMessagesForGraph (sessionC1 ++ [⟨"user", "M"⟩])
          ++ [LCMessage.ai (joinAll (["R"].filter fun c => c != ""))]) ∧
      [LCMessage.human "A", LCMessage.ai "B"] <+:
        ([LCMessage.human "A", LCMessage.ai "B"]
          ++ formatMessagesForGraph (sessionC1 ++ [⟨"user", "M"⟩])
          ++ [LCMessage.ai (joinAll (["R"].filter fun c => c != ""))]) :=
  c1_amended_history_preserved_but_duplicated envSimple storeC1 sessionC1 "t" "M"
    ⟨placeholderTs, "cp0", [LCMessage.human "A", LCMessage.ai "B"], ""⟩ ["R"]
    (by decide) rfl (by decide) rfl rfl (by decide)
